import Mathlib

/-!
Shallow embedding of the validated-motion core of the Jubilee motion platform
(`MotionPlatformStateMachine.py` and `MovementExecutor.py`).

Python values are modelled with explicit algebraic types; machine integers do
not occur (all numerics are Python floats, modelled as rationals).  Stateful
methods are modelled as explicit state-passing functions `SM → PyOut α`, where
an exception carries the state at raise time (Python leaves mutations in place
when an exception propagates).  Hardware effects (the low-level machine driver
and the scale, which are external collaborators of this repository) are
modelled as oracle parameters: a list of homed flags, a physical position, the
outcome of an execution closure, and a list of scale readings.
-/

set_option autoImplicit false

namespace Jubilee

/-- An apostrophe character, used to build the quoted identifiers that appear
in the Python reason strings. -/
def apos : Char := Char.ofNat 39

/-- Wraps a string in single quotes, as the Python f-strings do. -/
def q (s : String) : String := String.singleton apos ++ s ++ String.singleton apos

/-- Python values that occur as Motion Context attributes and as requirement /
exclusion values in the configuration. -/
inductive PyVal where
  | none
  | str (s : String)
  | bool (b : Bool)
  deriving DecidableEq, Repr

/-- Python `str()` of a `PyVal` (used by `_format_options`). -/
def PyVal.display : PyVal → String
  | .none => "None"
  | .str s => s
  | .bool true => "True"
  | .bool false => "False"

/-- Python `repr()` of a `PyVal` (used in requirement failure messages). -/
def PyVal.pyRepr : PyVal → String
  | .none => "None"
  | .str s => q s
  | .bool true => "True"
  | .bool false => "False"

/-- A requirement (or exclusion) value from a requirements map: either a single
expected value or a collection of admissible values. -/
inductive ReqVal where
  | single (v : PyVal)
  | options (vs : List PyVal)
  deriving DecidableEq, Repr

/-- `MotionPlatformStateMachine._value_matches`: collection values test
membership, single values test equality. -/
def valueMatches (actual : PyVal) : ReqVal → Bool
  | .single v => actual == v
  | .options vs => vs.contains actual

/-- Insert a string into an ascending list (helper for the sorted renderings
Python produces via `sorted(...)`). -/
def insertSorted (s : String) : List String → List String
  | [] => [s]
  | t :: ts => if t < s then t :: insertSorted s ts else s :: t :: ts

/-- Ascending insertion sort on strings (Python `sorted`). -/
def sortStrings (l : List String) : List String := l.foldr insertSorted []

/-- `MotionPlatformStateMachine._format_options`: deduplicate, sort, and join
with a comma, as `", ".join(sorted({str(option) for option in options}))`. -/
def formatOptions (options : List String) : String :=
  String.intercalate ", " (sortStrings options.dedup)

/-- `ZHeightPolicy` (frozen dataclass): an optional required z-height class and
a set of allowed classes.  The `allowed` field models the Python frozenset as a
duplicate-free list. -/
structure ZHeightPolicy where
  allowed : List String := []
  required : Option String := Option.none
  deriving DecidableEq, Repr

/-- Renders an optional z-height the way the Python f-strings do
(`"None" if z_height_id is None else z_height_id`). -/
def zDisplay : Option String → String
  | Option.none => "None"
  | some s => s

/-- `ZHeightPolicy.validate`: returns a human readable error message if the
policy is not satisfied, `none` otherwise.  Follows the Python truthiness of
`self.required or self.allowed`. -/
def ZHeightPolicy.validate (p : ZHeightPolicy) (z : Option String) : Option String :=
  if (p.required.isSome || !p.allowed.isEmpty) && z.isNone then
    some "Current z-height is not set."
  else if p.required.isSome ∧ z ≠ p.required then
    some ("Move requires z-height " ++ q (p.required.getD "") ++ ", current " ++
      q (zDisplay z) ++ ".")
  else if !p.allowed.isEmpty && !(match z with
      | some s => p.allowed.contains s
      | Option.none => false) then
    some ("Z-height " ++ q (zDisplay z) ++ " not permitted. Allowed: " ++
      formatOptions p.allowed ++ ".")
  else
    Option.none

/-- A configured coordinate for one axis: a number, or one of the string
sentinels ("PLACEHOLDER*", "USE_Z_HEIGHT_POLICY", anything else is skipped by
`check_coord`). -/
inductive Coord where
  | num (v : ℚ)
  | str (s : String)
  deriving DecidableEq, Repr

/-- `MachineCoordinates`: physical X, Y, Z, V coordinates for a position;
`none` per axis means the axis is unconstrained. -/
structure MachineCoordinates where
  x : Option Coord := Option.none
  y : Option Coord := Option.none
  z : Option Coord := Option.none
  v : Option Coord := Option.none
  deriving DecidableEq, Repr

/-- `PositionType` enum. -/
inductive PositionType where
  | GLOBAL_READY
  | MOLD_READY
  | DISPENSER_READY
  | SCALE_READY
  deriving DecidableEq, Repr

/-- `PositionDescriptor` (frozen dataclass).  Frozensets are modelled as
lists; requirement maps as association lists. -/
structure PositionDescriptor where
  identifier : String
  type : PositionType
  allowed_origins : List String := []
  allowed_destinations : List String := []
  coordinates : Option MachineCoordinates := Option.none
  requirements : List (String × ReqVal) := []
  z_height_policy : ZHeightPolicy := {}
  allows_tool_engagement : Bool := false
  engagement_requirements : List (String × ReqVal) := []
  engagement_actions : List String := []
  deriving DecidableEq, Repr

/-- `ActionDescriptor` (frozen dataclass). -/
structure ActionDescriptor where
  identifier : String
  position_scope : List String := []
  requirements : List (String × ReqVal) := []
  excludes : List (String × ReqVal) := []
  required_tool_id : Option String := Option.none
  requires_tool_engaged : Bool := false
  blocked_when_engaged : Bool := false
  deriving DecidableEq, Repr

/-- `PositionRegistry`: positions and actions by identifier, the configured
z-height classes (each mapped to its optional numeric `z_coordinate`), and the
per-axis coordinate tolerances (default 0.5 each). -/
structure PositionRegistry where
  positions : List PositionDescriptor
  actions : List ActionDescriptor := []
  z_heights : List (String × Option ℚ) := []
  tol_x : ℚ := 1/2
  tol_y : ℚ := 1/2
  tol_z : ℚ := 1/2
  tol_v : ℚ := 1/2
  deriving DecidableEq, Repr

/-- `PositionRegistry.get`, with the `KeyError` modelled as `none` (every
caller inside the state machine catches it). -/
def PositionRegistry.get? (reg : PositionRegistry) (identifier : String) :
    Option PositionDescriptor :=
  reg.positions.find? (fun p => p.identifier = identifier)

/-- `PositionRegistry.get_action`, with the `KeyError` modelled as `none`. -/
def PositionRegistry.getAction? (reg : PositionRegistry) (identifier : String) :
    Option ActionDescriptor :=
  reg.actions.find? (fun a => a.identifier = identifier)

/-- `PositionRegistry.find_first_of_type`. -/
def PositionRegistry.find_first_of_type (reg : PositionRegistry)
    (t : PositionType) : Option PositionDescriptor :=
  reg.positions.find? (fun p => p.type = t)

/-- Looks up a configured z-height class. -/
def PositionRegistry.zHeight? (reg : PositionRegistry) (name : String) :
    Option (Option ℚ) :=
  (reg.z_heights.find? (fun p => p.1 = name)).map Prod.snd

/-- The `WeightWell` fields the state machine inspects (name, validity, and
whether a top piston is present); geometry lives in the external labware. -/
structure WeightWell where
  name : String
  valid : Bool := true
  has_top_piston : Bool := false
  deriving DecidableEq, Repr

/-- `MoveRequest`: target position id plus optional action id. -/
structure MoveRequest where
  target_position_id : String
  action : Option String := Option.none
  deriving DecidableEq, Repr

/-- `MoveValidationResult`: boolean validity plus optional reason. -/
structure MoveValidationResult where
  valid : Bool
  reason : Option String := Option.none
  deriving DecidableEq, Repr

/-- `MotionContext`: the mutable state of the motion platform.  The external
`deck`, `scale` and dispenser objects are abstracted away; `current_well`
holds the carried mold, if any. -/
structure MotionContext where
  position_id : String
  z_height_id : Option String := Option.none
  active_tool_id : Option String := Option.none
  payload_state : Option String := Option.none
  tool_pose : Option String := Option.none
  pending_move : Option MoveRequest := Option.none
  engaged_ready_position_id : Option String := Option.none
  engaged_tool_id : Option String := Option.none
  current_well : Option WeightWell := Option.none
  mold_on_scale : Bool := false
  deriving DecidableEq, Repr

/-- `getattr(self.context, key, None)` for the context attributes consulted by
requirement and exclusion maps; unknown keys yield Python `None`. -/
def ctxAttr (ctx : MotionContext) : String → PyVal
  | "position_id" => .str ctx.position_id
  | "z_height_id" => match ctx.z_height_id with
      | some s => .str s
      | Option.none => .none
  | "active_tool_id" => match ctx.active_tool_id with
      | some s => .str s
      | Option.none => .none
  | "payload_state" => match ctx.payload_state with
      | some s => .str s
      | Option.none => .none
  | "tool_pose" => match ctx.tool_pose with
      | some s => .str s
      | Option.none => .none
  | "mold_on_scale" => .bool ctx.mold_on_scale
  | _ => .none

/-- The display Python uses for an expected requirement value: collections are
rendered via `_format_options`, single values via `repr`. -/
def ReqVal.display : ReqVal → String
  | .single v => v.pyRepr
  | .options vs => formatOptions (vs.map PyVal.display)

/-- `MotionPlatformStateMachine._validate_requirements`: first unsatisfied
requirement produces the failure message, `none` means all satisfied. -/
def validateRequirements (ctx : MotionContext) :
    List (String × ReqVal) → Option String
  | [] => Option.none
  | (key, expected) :: rest =>
    let actual := ctxAttr ctx key
    if valueMatches actual expected then validateRequirements ctx rest
    else some ("Requirement " ++ q (key ++ "=" ++ expected.display) ++
      " not satisfied (current: " ++ actual.pyRepr ++ ").")

/-- `MotionPlatformStateMachine._validate_excludes`: first violated exclusion
produces the failure message. -/
def validateExcludes (ctx : MotionContext) :
    List (String × ReqVal) → Option String
  | [] => Option.none
  | (key, excluded) :: rest =>
    let actual := ctxAttr ctx key
    if valueMatches actual excluded then
      some ("Exclusion violated: " ++ q key ++ " must not be " ++
        excluded.display ++ " (current: " ++ actual.pyRepr ++ ").")
    else validateExcludes ctx rest

/-- Python exceptions that the embedded methods can raise.  `hardware` stands
for an arbitrary exception surfacing from the external machine driver or
scale. -/
inductive PyErr where
  | attributeError (msg : String)
  | transitionNotAllowed (msg : String)
  | runtimeError (msg : String)
  | nameError (msg : String)
  | typeError (msg : String)
  | keyError (msg : String)
  | valueError (msg : String)
  | hardware (msg : String)
  deriving DecidableEq, Repr

/-- Python `str(e)`, as interpolated into the "Execution failed: ..."
reasons. -/
def PyErr.message : PyErr → String
  | .attributeError m => m
  | .transitionNotAllowed m => m
  | .runtimeError m => m
  | .nameError m => m
  | .typeError m => m
  | .keyError m => m
  | .valueError m => m
  | .hardware m => m

/-- One axis check from `PositionRegistry.validateN_position.check_coord`.
String sentinels: "PLACEHOLDER*" is skipped, "USE_Z_HEIGHT_POLICY" resolves
the expected value through the active z-height class (mirroring the Python
truthiness test `if z_expected and isinstance(...)`, a configured value of 0
is skipped), any other string falls through both isinstance branches and is
skipped. -/
def checkCoord (reg : PositionRegistry) (axisName : String) (tol : ℚ)
    (expected : Option Coord) (actual : ℚ)
    (current_z_height_id : Option String) : Option String :=
  match expected with
  | Option.none => Option.none
  | some (.str sv) =>
    if sv.startsWith "PLACEHOLDER" then Option.none
    else if sv = "USE_Z_HEIGHT_POLICY" then
      match current_z_height_id with
      | Option.none => some "Z coordinate requires z_height_id but none provided"
      | some zid =>
        match reg.zHeight? zid with
        | Option.none => some ("Unknown z_height_id: " ++ zid)
        | some z_config =>
          match z_config with
          | some z_expected =>
            if z_expected ≠ 0 ∧ |actual - z_expected| > tol then
              some (axisName ++ " coordinate mismatch: expected " ++
                toString z_expected ++ ", got " ++ toString actual ++
                " (tolerance: ±" ++ toString tol ++ ")")
            else Option.none
          | Option.none => Option.none
    else Option.none
  | some (.num v) =>
    if |actual - v| > tol then
      some (axisName ++ " coordinate mismatch: expected " ++ toString v ++
        ", got " ++ toString actual ++ " (tolerance: ±" ++ toString tol ++ ")")
    else Option.none

/-- `PositionRegistry.validateN_position` (lines 324-388): validate that the
machine is physically at the expected coordinates for a position.  `self.get`
raises `KeyError` for an unknown identifier; a position without coordinates
skips validation; otherwise the axes are checked in the order x, y, z, v and
the first failing axis yields the error message. -/
def PositionRegistry.validateN_position (reg : PositionRegistry)
    (position_id : String) (mx my mz mv : ℚ)
    (current_z_height_id : Option String) : Except PyErr (Option String) :=
  match reg.get? position_id with
  | Option.none =>
    .error (.keyError ("Unknown position identifier " ++ q position_id))
  | some position =>
    match position.coordinates with
    | Option.none => .ok Option.none
    | some coords =>
      let firstIssue :=
        (checkCoord reg "X" reg.tol_x coords.x mx current_z_height_id).orElse fun _ =>
        (checkCoord reg "Y" reg.tol_y coords.y my current_z_height_id).orElse fun _ =>
        (checkCoord reg "Z" reg.tol_z coords.z mz current_z_height_id).orElse fun _ =>
        checkCoord reg "V" reg.tol_v coords.v mv current_z_height_id
      .ok (firstIssue.map fun err =>
        "Position " ++ q position_id ++ " validation failed: " ++ err)

/-- The three states of `MotionPlatformStateMachine`. -/
inductive FsmState where
  | idle
  | moving
  | tool_engaged
  deriving DecidableEq, Repr

/-- The display name python-statemachine gives each state. -/
def stateName : FsmState → String
  | .idle => "Idle"
  | .moving => "Moving"
  | .tool_engaged => "Tool Engaged"

/-- A state machine instance: its python-statemachine state plus the Motion
Context it owns. -/
structure SM where
  state : FsmState
  context : MotionContext
  deriving DecidableEq, Repr

/-- Outcome of a stateful method: a normal return or a raised exception, each
carrying the (possibly mutated) state, since Python keeps mutations made
before a raise. -/
inductive PyOut (α : Type) where
  | ok (a : α) (s : SM)
  | err (e : PyErr) (s : SM)
  deriving DecidableEq, Repr

/-- The `TransitionNotAllowed` message python-statemachine raises. -/
def tnaMsg (transition : String) (st : FsmState) : String :=
  "Can" ++ String.singleton apos ++ "t " ++ transition ++ " when in " ++
    stateName st ++ "."

/-- `begin_motion = idle.to(moving)`.  Raises `TransitionNotAllowed` outside
`idle`; the `on_enter_moving` hook raises `RuntimeError` when no pending move
is recorded (after the state has changed). -/
def begin_motion (s : SM) : PyOut Unit :=
  if s.state = .idle then
    if s.context.pending_move.isNone then
      .err (.runtimeError "Entered moving state without a pending move.")
        { s with state := .moving }
    else .ok () { s with state := .moving }
  else .err (.transitionNotAllowed (tnaMsg "begin_motion" s.state)) s

/-- `complete_motion = moving.to(idle)`; the `on_enter_idle` hook resets the
pending move. -/
def complete_motion (s : SM) : PyOut Unit :=
  if s.state = .moving then
    .ok () { s with
      state := .idle
      context := { s.context with pending_move := Option.none } }
  else .err (.transitionNotAllowed (tnaMsg "complete_motion" s.state)) s

/-- `abort_motion = moving.to(idle)`; the `on_enter_idle` hook resets the
pending move. -/
def abort_motion (s : SM) : PyOut Unit :=
  if s.state = .moving then
    .ok () { s with
      state := .idle
      context := { s.context with pending_move := Option.none } }
  else .err (.transitionNotAllowed (tnaMsg "abort_motion" s.state)) s

/-- `engage_tool = idle.to(tool_engaged)`. -/
def engage_tool (s : SM) : PyOut Unit :=
  if s.state = .idle then .ok () { s with state := .tool_engaged }
  else .err (.transitionNotAllowed (tnaMsg "engage_tool" s.state)) s

/-- `disengage_tool = tool_engaged.to(idle)`; the `on_enter_idle` hook resets
the pending move. -/
def disengage_tool (s : SM) : PyOut Unit :=
  if s.state = .tool_engaged then
    .ok () { s with
      state := .idle
      context := { s.context with pending_move := Option.none } }
  else .err (.transitionNotAllowed (tnaMsg "disengage_tool" s.state)) s

/-- Discriminates the two readings of the machine-state check (step 3 of the
generic protocol). -/
inductive MCheck where
  | faithful
  | intended
  deriving DecidableEq, Repr

/-- Live physical machine position, as returned by
`MovementExecutor.get_machine_position` (`current_pos.get('X', 0)` etc.). -/
structure AxisPos where
  x : ℚ := 0
  y : ℚ := 0
  z : ℚ := 0
  v : ℚ := 0
  deriving DecidableEq, Repr

/-- `validate_machine_state` (lines 1855-1895).  The source calls
`self._registry.validate_machine_position(...)`, but `PositionRegistry`
defines no method of that name: its coordinate validator is
`validateN_position` (lines 324-388), whose parameters match the call site
exactly.  `MCheck.faithful` IS the program: the call as written makes Python
raise `AttributeError` unconditionally — claim C2's subject — so every path
of the generic protocol downstream of this step is unreachable.
`MCheck.intended` is a counterfactual repair (the dispatch the call site's
name and docstring evidently intended); it exists only so that theorems can
be stated parametrically in the mode, and no claim's verdict rests on it:
the theorems quantifying over `mc` are decided by checks that precede this
step, and their witnesses return before reaching it. -/
def validate_machine_state (mc : MCheck) (reg : PositionRegistry)
    (pos : AxisPos) (s : SM) : Except PyErr MoveValidationResult :=
  match mc with
  | .faithful =>
    .error (.attributeError (q "PositionRegistry" ++
      " object has no attribute " ++ q "validate_machine_position"))
  | .intended =>
    match reg.validateN_position s.context.position_id pos.x pos.y pos.z pos.v
        s.context.z_height_id with
    | .error e => .error e
    | .ok (some err) =>
      .ok ⟨false, some ("Machine state validation failed: " ++ err ++
        ". Machine may not be at expected position " ++
        q s.context.position_id ++ ".")⟩
    | .ok Option.none => .ok ⟨true, Option.none⟩

/-- The reason built when the target is not among the current position's
allowed destinations. -/
def destinationsReason (cur tgt : String) (dests : List String) : String :=
  "Cannot move from " ++ q cur ++ " to " ++ q tgt ++
    ". Allowed destinations: " ++ formatOptions dests ++ "."

/-- The reason built when the current position is not among the target's
allowed origins. -/
def originsReason (tgt cur : String) (origins : List String) : String :=
  q tgt ++ " cannot accept moves from " ++ q cur ++ ". Allowed origins: " ++
    formatOptions origins ++ "."

/-- The tail of `validate_move`: z-height policy (skipped while the tool is
engaged) then the target's requirements. -/
def validateMoveTail (s : SM) (targetD : PositionDescriptor) :
    MoveValidationResult :=
  if s.state ≠ .tool_engaged then
    match targetD.z_height_policy.validate s.context.z_height_id with
    | some issue => ⟨false, some issue⟩
    | Option.none =>
      match validateRequirements s.context targetD.requirements with
      | some issue => ⟨false, some issue⟩
      | Option.none => ⟨true, Option.none⟩
  else
    match validateRequirements s.context targetD.requirements with
    | some issue => ⟨false, some issue⟩
    | Option.none => ⟨true, Option.none⟩

/-- `validate_move` (lines 1689-1751): registry lookups, the tool-engaged
ready-point constraint, the two-directional topology check, z-height policy
and target requirements. -/
def validate_move (reg : PositionRegistry) (s : SM) (req : MoveRequest) :
    MoveValidationResult :=
  match reg.get? req.target_position_id with
  | Option.none =>
    ⟨false, some ("Unknown target position " ++ q req.target_position_id ++ ".")⟩
  | some targetD =>
    match reg.get? s.context.position_id with
    | Option.none =>
      ⟨false, some ("Current position " ++ q s.context.position_id ++
        " is not registered.")⟩
    | some currentD =>
      if s.state = .tool_engaged then
        if req.target_position_id ≠ s.context.position_id then
          ⟨false, some "Cannot leave the ready point while the tool is engaged."⟩
        else validateMoveTail s targetD
      else
        if ¬ currentD.allowed_destinations.contains req.target_position_id then
          ⟨false, some (destinationsReason s.context.position_id
            req.target_position_id currentD.allowed_destinations)⟩
        else if ¬ targetD.allowed_origins.contains s.context.position_id then
          ⟨false, some (originsReason req.target_position_id
            s.context.position_id targetD.allowed_origins)⟩
        else validateMoveTail s targetD

/-- The required-tool check shared by `perform_action` and
`_validate_and_execute_action`. -/
def requiredToolIssue (d : ActionDescriptor) (ctx : MotionContext)
    (action_id : String) : Option String :=
  match d.required_tool_id with
  | Option.none => Option.none
  | some t =>
    if ctx.active_tool_id ≠ some t then
      some ("Action " ++ q action_id ++ " requires tool " ++ q t ++
        ". Current tool: " ++ q (zDisplay ctx.active_tool_id) ++ ".")
    else Option.none

/-- The position-scope check shared by `perform_action` and
`_validate_and_execute_action`: while tool-engaged the tool's engaged
ready-position is the reference, otherwise the current position. -/
def positionScopeIssue (d : ActionDescriptor) (s : SM) (action_id : String) :
    Option String :=
  if d.position_scope.isEmpty then Option.none
  else
    let ref : Option String :=
      if s.state = .tool_engaged then s.context.engaged_ready_position_id
      else some s.context.position_id
    if (match ref with
        | some r => d.position_scope.contains r
        | Option.none => false) then Option.none
    else
      some ("Action " ++ q action_id ++ " only permitted at: " ++
        formatOptions d.position_scope ++ ". Current position: " ++
        q (zDisplay ref) ++ ".")

/-- `perform_action` (lines 1630-1687): pure validation of an auxiliary
action against the current context; no state change. -/
def perform_action (reg : PositionRegistry) (s : SM) (action_id : String) :
    MoveValidationResult :=
  match reg.getAction? action_id with
  | Option.none => ⟨false, some ("Unknown action " ++ q action_id ++ ".")⟩
  | some d =>
    if d.requires_tool_engaged ∧ s.state ≠ .tool_engaged then
      ⟨false, some ("Action " ++ q action_id ++
        " requires the tool to be engaged.")⟩
    else if d.blocked_when_engaged ∧ s.state = .tool_engaged then
      ⟨false, some ("Action " ++ q action_id ++
        " cannot be performed while tool is engaged. Tool must be disengaged first.")⟩
    else match requiredToolIssue d s.context action_id with
    | some issue => ⟨false, some issue⟩
    | Option.none =>
      match positionScopeIssue d s action_id with
      | some issue => ⟨false, some issue⟩
      | Option.none =>
        match validateRequirements s.context d.requirements with
        | some issue => ⟨false, some issue⟩
        | Option.none =>
          match validateExcludes s.context d.excludes with
          | some issue => ⟨false, some issue⟩
          | Option.none => ⟨true, Option.none⟩

/-- `request_move` (lines 1608-1628): action requests are delegated to
`perform_action`; a move request is rejected while `moving`, validated via
`validate_move`, and on success recorded as pending before `begin_motion`. -/
def request_move (reg : PositionRegistry) (req : MoveRequest) (s : SM) :
    PyOut MoveValidationResult :=
  match req.action with
  | some a => .ok (perform_action reg s a) s
  | Option.none =>
    if s.state = .moving then
      .ok ⟨false, some "Already executing a move."⟩ s
    else
      let v := validate_move reg s req
      if v.valid then
        let s1 := { s with context := { s.context with pending_move := some req } }
        match begin_motion s1 with
        | .ok _ s2 => .ok v s2
        | .err e s2 => .err e s2
      else .ok v s

/-- The effective engagement requirements of a position:
`descriptor.engagement_requirements or descriptor.requirements` (Python
truthiness on the mapping). -/
def effectiveEngagementReqs (d : PositionDescriptor) : List (String × ReqVal) :=
  if d.engagement_requirements.isEmpty then d.requirements
  else d.engagement_requirements

/-- `_assert_engagement_exit_ready` (lines 1918-1927): ensure the machine
still satisfies the engaged position's requirements before exiting; a
violation raises `RuntimeError`. -/
def assert_engagement_exit_ready (reg : PositionRegistry) (s : SM) :
    PyOut Unit :=
  match s.context.engaged_ready_position_id with
  | Option.none => .ok () s
  | some pid =>
    match reg.get? pid with
    | Option.none =>
      .err (.keyError ("Unknown position identifier " ++ q pid)) s
    | some d =>
      match validateRequirements s.context (effectiveEngagementReqs d) with
      | some issue =>
        .err (.runtimeError ("Cannot exit tool-engaged state: " ++ issue)) s
      | Option.none => .ok () s

/-- `complete_move` (lines 1753-1778): finalize a pending move.  The position
id advances to the target; with `tool_still_engaged` the engaged
ready-position and tool are recorded and the source then calls
`self.complete_motion_with_tool()` — a transition the class never declares
(lines 400-408 declare only `begin_motion`, `complete_motion`, `engage_tool`,
`disengage_tool`, `abort_motion`), so the attribute lookup raises
`AttributeError`.  Without it, `_assert_engagement_exit_ready` runs, then
`complete_motion`, then the engagement fields and pending move are cleared. -/
def complete_move (reg : PositionRegistry) (tool_still_engaged : Bool)
    (s : SM) : PyOut Unit :=
  match s.context.pending_move with
  | Option.none =>
    .err (.runtimeError "Cannot complete move when no pending move is recorded.") s
  | some req =>
    match reg.get? req.target_position_id with
    | Option.none =>
      .err (.keyError ("Unknown position identifier " ++
        q req.target_position_id)) s
    | some target =>
      let s1 := { s with context :=
        { s.context with position_id := target.identifier } }
      if tool_still_engaged then
        let s2 := { s1 with context := { s1.context with
          engaged_ready_position_id := some target.identifier
          engaged_tool_id :=
            if s1.context.engaged_tool_id.isNone then s1.context.active_tool_id
            else s1.context.engaged_tool_id } }
        .err (.attributeError (q "MotionPlatformStateMachine" ++
          " object has no attribute " ++ q "complete_motion_with_tool")) s2
      else
        match assert_engagement_exit_ready reg s1 with
        | .err e s2 => .err e s2
        | .ok _ s2 =>
          match complete_motion s2 with
          | .err e s3 => .err e s3
          | .ok _ s3 =>
            .ok () { s3 with context := { s3.context with
              engaged_ready_position_id := Option.none
              engaged_tool_id := Option.none
              pending_move := Option.none } }

/-- Step 7 of `_validate_and_execute_move` (lines 1048-1078): record the
pending move, `begin_motion`, run the execution closure, `complete_move`.  A
raised exception is caught, `abort_motion` is issued if the machine is still
`moving`, and the failure is reported as a result; a `False` return from the
execution closure is reported as a failure only after `complete_move` has
already run.  `execResult` is the outcome of `execution_func(**kwargs)`; the
closure's hardware effects are external, so it is modelled by its outcome. -/
def moveExecutePhase (reg : PositionRegistry) (execResult : Except PyErr PyVal)
    (target : String) (s : SM) : PyOut MoveValidationResult :=
  let body : PyOut PyVal :=
    let s1 := { s with context :=
      { s.context with pending_move := some ⟨target, Option.none⟩ } }
    match begin_motion s1 with
    | .err e s2 => .err e s2
    | .ok _ s2 =>
      match execResult with
      | .error e => .err e s2
      | .ok v =>
        match complete_move reg false s2 with
        | .err e s3 => .err e s3
        | .ok _ s3 => .ok v s3
  match body with
  | .ok v s2 =>
    if v = .bool false then .ok ⟨false, some "Execution returned False"⟩ s2
    else .ok ⟨true, Option.none⟩ s2
  | .err e s2 =>
    let s3 := if s2.state = .moving then
        match abort_motion s2 with
        | .ok _ t => t
        | .err _ t => t
      else s2
    .ok ⟨false, some ("Execution failed: " ++ e.message)⟩ s3

/-- `_validate_and_execute_move` (lines 971-1081): registry lookups, the
two-directional topology check, the machine-state check (step 3), z-height
policy, target requirements, caller-supplied additional requirements, then
the execute phase (or a plain valid result when no execution closure is
supplied). -/
def validate_and_execute_move (mc : MCheck) (reg : PositionRegistry)
    (pos : AxisPos) (additional : List (String × ReqVal))
    (execFn : Option (Except PyErr PyVal)) (target : String) (s : SM) :
    PyOut MoveValidationResult :=
  match reg.get? target with
  | Option.none =>
    .ok ⟨false, some ("Unknown target position " ++ q target ++ ".")⟩ s
  | some targetD =>
    match reg.get? s.context.position_id with
    | Option.none =>
      .ok ⟨false, some ("Current position " ++ q s.context.position_id ++
        " is not registered.")⟩ s
    | some currentD =>
      if ¬ currentD.allowed_destinations.contains target then
        .ok ⟨false, some (destinationsReason s.context.position_id target
          currentD.allowed_destinations)⟩ s
      else if ¬ targetD.allowed_origins.contains s.context.position_id then
        .ok ⟨false, some (originsReason target s.context.position_id
          targetD.allowed_origins)⟩ s
      else
        match validate_machine_state mc reg pos s with
        | .error e => .err e s
        | .ok mv =>
          if ¬ mv.valid then .ok mv s
          else
            match targetD.z_height_policy.validate s.context.z_height_id with
            | some issue => .ok ⟨false, some issue⟩ s
            | Option.none =>
              match validateRequirements s.context targetD.requirements with
              | some issue => .ok ⟨false, some issue⟩ s
              | Option.none =>
                match validateRequirements s.context additional with
                | some issue => .ok ⟨false, some issue⟩ s
                | Option.none =>
                  match execFn with
                  | Option.none => .ok ⟨true, Option.none⟩ s
                  | some execResult => moveExecutePhase reg execResult target s

/-- `_validate_and_execute_action` (lines 1083-1196): action lookup, tool
engagement constraints, required tool, position scope, the machine-state
check, requirements, exclusions, additional requirements, then execution
(no position change; a `False` or `None` return is a failure). -/
def validate_and_execute_action (mc : MCheck) (reg : PositionRegistry)
    (pos : AxisPos) (additional : List (String × ReqVal))
    (execFn : Option (Except PyErr PyVal)) (action_id : String) (s : SM) :
    PyOut MoveValidationResult :=
  match reg.getAction? action_id with
  | Option.none =>
    .ok ⟨false, some ("Unknown action " ++ q action_id ++ ".")⟩ s
  | some d =>
    if d.requires_tool_engaged ∧ s.state ≠ .tool_engaged then
      .ok ⟨false, some ("Action " ++ q action_id ++
        " requires the tool to be engaged.")⟩ s
    else if d.blocked_when_engaged ∧ s.state = .tool_engaged then
      .ok ⟨false, some ("Action " ++ q action_id ++
        " cannot be performed while tool is engaged. Tool must be disengaged first.")⟩ s
    else match requiredToolIssue d s.context action_id with
    | some issue => .ok ⟨false, some issue⟩ s
    | Option.none =>
      match positionScopeIssue d s action_id with
      | some issue => .ok ⟨false, some issue⟩ s
      | Option.none =>
        match validate_machine_state mc reg pos s with
        | .error e => .err e s
        | .ok mv =>
          if ¬ mv.valid then .ok mv s
          else
            match validateRequirements s.context d.requirements with
            | some issue => .ok ⟨false, some issue⟩ s
            | Option.none =>
              match validateExcludes s.context d.excludes with
              | some issue => .ok ⟨false, some issue⟩ s
              | Option.none =>
                match validateRequirements s.context additional with
                | some issue => .ok ⟨false, some issue⟩ s
                | Option.none =>
                  match execFn with
                  | Option.none => .ok ⟨true, Option.none⟩ s
                  | some (.error e) =>
                    .ok ⟨false, some ("Execution failed: " ++ e.message)⟩ s
                  | some (.ok v) =>
                    if v = .bool false ∨ v = .none then
                      .ok ⟨false, some "Execution returned False"⟩ s
                    else .ok ⟨true, Option.none⟩ s

/-- The fixed exemption list of step 1.5 of `_validate_and_execute`
(line 944). -/
def homingActions : List String :=
  ["home_all", "home_manipulator", "home_trickler", "home_xyz"]

/-- The axis display names used by the homed check (line 947). -/
def axisNames : List String := ["X", "Y", "Z", "U", "V"]

/-- `[axis_names[i] for i in range(len(axes_homed)) if i < len(axis_names)
and not axes_homed[i]]`. -/
def notHomedNames (axes : List Bool) : List String :=
  (axes.zip axisNames).filterMap
    (fun p => if p.1 then Option.none else some p.2)

/-- The failure reason naming the unhomed axes (line 952). -/
def unhomedReason (axes : List Bool) : String :=
  "All axes must be homed before performing moves/actions. Unhomed axes: " ++
    String.intercalate ", " (notHomedNames axes)

/-- `_validate_and_execute` (lines 884-969): the caller must supply exactly
one of a target position or an action id; a request is rejected while
`moving`; unless the action is on the homing exemption list, every axis must
report homed; then the request is routed to the move or action validator.
`axes` is the oracle for `MovementExecutor.get_machine_axes_homed`. -/
def validate_and_execute (mc : MCheck) (reg : PositionRegistry)
    (axes : List Bool) (pos : AxisPos) (target? action? : Option String)
    (additional : List (String × ReqVal))
    (execFn : Option (Except PyErr PyVal)) (s : SM) :
    PyOut MoveValidationResult :=
  if target?.isNone = action?.isNone then
    .err (.valueError ("Must provide exactly one of " ++
      q "target_position_id" ++ " (for movements) or " ++ q "action_id" ++
      " (for actions)")) s
  else if s.state = .moving then
    .ok ⟨false, some "Already executing a move. Wait for current move to complete."⟩ s
  else
    let exempt := match action? with
      | some a => homingActions.contains a
      | Option.none => false
    if exempt = false ∧ notHomedNames axes ≠ [] then
      .ok ⟨false, some (unhomedReason axes)⟩ s
    else
      match target? with
      | some t => validate_and_execute_move mc reg pos additional execFn t s
      | Option.none =>
        match action? with
        | some a => validate_and_execute_action mc reg pos additional execFn a s
        | Option.none =>
          -- ruled out by the exclusive-argument guard above
          .err (.valueError "unreachable") s

/-- `request_tool_disengagement` (lines 1805-1825): only from `tool_engaged`
with a known engaged ready-position; the engagement requirements are
re-validated, and a violation is returned as an ordinary invalid
`MoveValidationResult`; on success `disengage_tool` runs and the engagement
fields are cleared. -/
def request_tool_disengagement (reg : PositionRegistry) (s : SM) :
    PyOut MoveValidationResult :=
  if s.state ≠ .tool_engaged then
    .ok ⟨false, some "No tool is currently engaged."⟩ s
  else
    match s.context.engaged_ready_position_id with
    | Option.none =>
      .ok ⟨false, some "Engaged ready position is unknown; cannot disengage safely."⟩ s
    | some pid =>
      match reg.get? pid with
      | Option.none =>
        .err (.keyError ("Unknown position identifier " ++ q pid)) s
      | some d =>
        match validateRequirements s.context (effectiveEngagementReqs d) with
        | some issue => .ok ⟨false, some issue⟩ s
        | Option.none =>
          match disengage_tool s with
          | .err e s2 => .err e s2
          | .ok _ s2 =>
            .ok ⟨true, Option.none⟩ { s2 with context := { s2.context with
              engaged_ready_position_id := Option.none
              engaged_tool_id := Option.none } }

/-- The main loop of `MovementExecutor.execute_dispense_powder`
(lines 679-752), modelled over the stream of scale readings consumed in
order: every `get_weight` call, stable or unstable, takes the next reading.
Machine G-code commands do not affect the control flow.  Below 90% of target
an iteration consumes the unstable reading and one stable reading after the
coarse step; at or above 90% it consumes the unstable reading and a second
unstable reading after the fine step, and when the latter reaches 99% of
target it consumes one final stable confirmation reading, accepting only if
that reading is also at least 99% of target and otherwise resuming the loop.
`fuel` bounds the iteration count; `none` means no successful termination was
observed within the supplied readings/fuel.  On success the value returned is
the final stable confirmation reading. -/
def dispenseLoop (target : ℚ) : Nat → List ℚ → Option ℚ
  | 0, _ => Option.none
  | _ + 1, [] => Option.none
  | fuel + 1, current :: rest =>
    if current ≥ 9/10 * target then
      match rest with
      | [] => Option.none
      | unstable :: rest2 =>
        if unstable ≥ 99/100 * target then
          match rest2 with
          | [] => Option.none
          | final :: rest3 =>
            if final ≥ 99/100 * target then some final
            else dispenseLoop target fuel rest3
        else dispenseLoop target fuel rest2
    else
      match rest with
      | [] => Option.none
      | _stable :: rest2 => dispenseLoop target fuel rest2

/-- `execute_dispense_powder` (lines 646-756): returns `True` exactly on the
successful break out of the loop; every exception is caught and yields
`False`. -/
def execute_dispense_powder (target : ℚ) (fuel : Nat)
    (readings : List ℚ) : Bool :=
  (dispenseLoop target fuel readings).isSome

/-- `validated_dispense_powder` (lines 1289-1320): requires only that the
current logical position is SCALE_READY — in particular it does not enter
`_validate_and_execute` and never consults the FSM state — then runs the
dispense loop directly. -/
def validated_dispense_powder (target : ℚ) (fuel : Nat) (readings : List ℚ)
    (s : SM) : PyOut MoveValidationResult :=
  if s.context.position_id ≠ "SCALE_READY" then
    .ok ⟨false, some ("Must be at SCALE_READY position to dispense. Current: " ++
      s.context.position_id)⟩ s
  else if execute_dispense_powder target fuel readings then
    .ok ⟨true, Option.none⟩ s
  else .ok ⟨false, some "Dispensing failed"⟩ s

/-- `MovementExecutor.execute_home_tamper` (lines 758-788): requires X, Y, Z
and U (the first four homed flags) to be set, raising `RuntimeError`
otherwise; the V axis itself is never inspected.  The model assumes the
driver reports at least four axes (the source indexes `axes_homed[0..3]`
directly). -/
def execute_home_tamper (axes : List Bool) (tamper_axis : String) :
    Except PyErr Unit :=
  if (List.range 4).all (fun i => axes.getD i false) then .ok ()
  else
    .error (.runtimeError ("X, Y, Z, and U axes must be homed before homing the tamper (" ++
      tamper_axis ++ ") axis."))

/-- `validated_home_tamper` (lines 1322-1343): calls the executor directly —
it never enters `_validate_and_execute`, so neither the moving-state gate nor
the generic homed-axes gate applies; the executor's own `RuntimeError` is
caught and reported as an invalid result. -/
def validated_home_tamper (axes : List Bool) (tamper_axis : String) (s : SM) :
    PyOut MoveValidationResult :=
  match execute_home_tamper axes tamper_axis with
  | .ok _ => .ok ⟨true, Option.none⟩ s
  | .error e => .ok ⟨false, some ("Tamper homing failed: " ++ e.message)⟩ s

/-- `MovementExecutor.execute_pick_mold_from_well` (lines 81-148): five
machine motion commands run first (each may surface a hardware error,
modelled by the `machineCall` oracle); then line 145 evaluates
`move_to(z=z_ready, s=feedrate)` where the name `z_ready` is not defined
anywhere in the module, so Python raises `NameError` unconditionally on this
path. -/
def execute_pick_mold_from_well (machineCall : Nat → Option PyErr) :
    Except PyErr Unit :=
  match machineCall 0 with
  | some e => .error e
  | Option.none =>
  match machineCall 1 with
  | some e => .error e
  | Option.none =>
  match machineCall 2 with
  | some e => .error e
  | Option.none =>
  match machineCall 3 with
  | some e => .error e
  | Option.none =>
  match machineCall 4 with
  | some e => .error e
  | Option.none =>
    .error (.nameError ("name " ++ q "z_ready" ++ " is not defined"))

/-- `validated_pick_mold_from_well` (lines 591-661).  The deck and its
labware are external science-jubilee objects, so `get_well_from_deck` is
abstracted as an optional lookup function (`none` models an unconfigured
deck); the `isinstance(well, WeightWell)` test is discharged by typing. -/
def validated_pick_mold_from_well
    (lookup : Option (String → Option WeightWell)) (well_id : String)
    (machineCall : Nat → Option PyErr) (s : SM) :
    PyOut MoveValidationResult :=
  if s.context.current_well.isSome then
    .ok ⟨false, some "Manipulator already carrying a mold"⟩ s
  else
    match lookup with
    | Option.none => .ok ⟨false, some "Deck not configured"⟩ s
    | some deck =>
      match deck well_id with
      | Option.none => .ok ⟨false, some ("Well " ++ well_id ++ " not found")⟩ s
      | some well =>
        if well.valid = false then .ok ⟨false, some "Mold is not valid"⟩ s
        else if well.has_top_piston then
          .ok ⟨false, some "Cannot pick up mold that already has a top piston"⟩ s
        else
          match execute_pick_mold_from_well machineCall with
          | .error e => .ok ⟨false, some ("Execution failed: " ++ e.message)⟩ s
          | .ok _ =>
            .ok ⟨true, Option.none⟩ { s with context := { s.context with
              current_well := some well
              mold_on_scale := false } }

/-- The call `self._executor.execute_place_mold_in_well(well_id=..., deck=...,
tamper_axis=..., tamper_travel_pos=..., safe_z=...)` at lines 690-696 of the
state machine.  The executor's signature (lines 151-158) is `(well_id, deck,
ready_x, ready_y, ready_z, ready_v)`: the keyword arguments do not match the
parameters, so Python raises `TypeError` before the body runs. -/
def call_execute_place_mold_in_well : Except PyErr Unit :=
  .error (.typeError ("execute_place_mold_in_well() got an unexpected keyword argument " ++
    q "tamper_axis"))

/-- `validated_place_mold_in_well` (lines 663-705).  `deckConfigured` models
`self.context.deck is not None`. -/
def validated_place_mold_in_well (deckConfigured : Bool) (s : SM) :
    PyOut MoveValidationResult :=
  if s.context.current_well.isNone then
    .ok ⟨false, some "Not carrying a mold"⟩ s
  else if deckConfigured = false then
    .ok ⟨false, some "Deck not configured"⟩ s
  else
    match call_execute_place_mold_in_well with
    | .error e => .ok ⟨false, some ("Execution failed: " ++ e.message)⟩ s
    | .ok _ =>
      .ok ⟨true, Option.none⟩ { s with context := { s.context with
        current_well := Option.none
        mold_on_scale := false } }

/-! Concrete fixtures used by witnesses and counterexamples. -/

/-- Demo position: a global-ready point whose only allowed destination is
`scale_ready`. -/
def gReady : PositionDescriptor :=
  { identifier := "global_ready", type := .GLOBAL_READY,
    allowed_destinations := ["scale_ready"] }

/-- Demo position: a scale-ready point reachable from `global_ready` that
allows tool engagement and requires the mold to be on the scale while
engaged. -/
def sReady : PositionDescriptor :=
  { identifier := "scale_ready", type := .SCALE_READY,
    allowed_origins := ["global_ready"], allows_tool_engagement := true,
    engagement_requirements := [("mold_on_scale", .single (.bool true))] }

/-- Demo position: a mold-ready point with empty topology sets. -/
def mReadyIsolated : PositionDescriptor :=
  { identifier := "mold_ready_A1", type := .MOLD_READY }

/-- A small concrete registry for witnesses and counterexamples. -/
def demoRegistry : PositionRegistry :=
  { positions := [gReady, sReady, mReadyIsolated] }

/-- Idle at the global-ready point. -/
def demoIdle : SM :=
  { state := .idle, context := { position_id := "global_ready" } }

/-- Tool engaged at the global-ready point (recorded as the engaged ready
point); from here `scale_ready` is a topology-legal target. -/
def demoEngagedAtGlobal : SM :=
  { state := .tool_engaged
    context := { position_id := "global_ready"
                 engaged_ready_position_id := some "global_ready" } }

/-- Mid-move: `moving` with a pending move to `scale_ready`. -/
def demoMoving : SM :=
  { state := .moving
    context := { position_id := "global_ready"
                 pending_move := some ⟨"scale_ready", Option.none⟩ } }

/-- Mid-move at the dispensing position (`position_id` has not advanced yet,
as `complete_move` only runs at the end of a move). -/
def demoMovingAtScale : SM :=
  { state := .moving
    context := { position_id := "SCALE_READY"
                 pending_move := some ⟨"SCALE_READY", Option.none⟩ } }

/-- Tool engaged at `scale_ready` while the mold is *not* on the scale, so
the engagement requirement has silently become false. -/
def demoEngagedNoMold : SM :=
  { state := .tool_engaged
    context := { position_id := "scale_ready"
                 engaged_ready_position_id := some "scale_ready" } }

/-- All five axes report homed. -/
def allHomed : List Bool := [true, true, true, true, true]

/-- X, Y, Z, U homed but the manipulator axis V unhomed. -/
def vUnhomed : List Bool := [true, true, true, true, false]

/-- A live machine position (the demo positions declare no coordinates, so
its value is immaterial to coordinate validation). -/
def originPos : AxisPos := {}

/-! Shared helper lemmas. -/

/-- In the tool-engaged state, `validate_move` never validates a request whose
target differs from the current position. -/
theorem validate_move_engaged_invalid (reg : PositionRegistry) (s : SM)
    (req : MoveRequest) (h : s.state = .tool_engaged)
    (hneq : req.target_position_id ≠ s.context.position_id) :
    (validate_move reg s req).valid = false := by
  simp only [validate_move]
  split
  · rfl
  · split
    · rfl
    · rw [if_pos h, if_pos hneq]

/-- In the faithful program, `_validate_and_execute_move` never consults the
supplied execution closure: every run either fails one of the lookups or
topology checks — returning an invalid result with the state unchanged — or
reaches the machine-state step, whose call to the undefined
`validate_machine_position` raises `AttributeError` with the state
unchanged.  In particular the outcome is the same for every execution
closure, and the state machine never moves the platform. -/
theorem validate_and_execute_move_faithful_stops (reg : PositionRegistry)
    (pos : AxisPos) (additional : List (String × ReqVal))
    (f : Except PyErr PyVal) (target : String) (s : SM) :
    (∀ g, validate_and_execute_move .faithful reg pos additional (some g)
        target s =
      validate_and_execute_move .faithful reg pos additional (some f)
        target s) ∧
    ((∃ r, validate_and_execute_move .faithful reg pos additional (some f)
        target s = .ok r s ∧ r.valid = false) ∨
     (∃ e, validate_and_execute_move .faithful reg pos additional (some f)
        target s = .err e s)) := by
  constructor
  · intro g
    simp only [validate_and_execute_move, validate_machine_state]
  · simp only [validate_and_execute_move, validate_machine_state]
    split
    · exact Or.inl ⟨_, rfl, rfl⟩
    · split
      · exact Or.inl ⟨_, rfl, rfl⟩
      · split
        · exact Or.inl ⟨_, rfl, rfl⟩
        · split
          · exact Or.inl ⟨_, rfl, rfl⟩
          · exact Or.inr ⟨_, rfl⟩

/-- `execute_pick_mold_from_well` raises on every hardware oracle: even when
all five motion commands succeed, the undefined name `z_ready` at line 145
raises `NameError`. -/
theorem execute_pick_mold_from_well_error (machineCall : Nat → Option PyErr) :
    ∃ e, execute_pick_mold_from_well machineCall = .error e := by
  simp only [execute_pick_mold_from_well]
  split
  · exact ⟨_, rfl⟩
  · split
    · exact ⟨_, rfl⟩
    · split
      · exact ⟨_, rfl⟩
      · split
        · exact ⟨_, rfl⟩
        · split
          · exact ⟨_, rfl⟩
          · exact ⟨_, rfl⟩

/-! Claim theorems. -/

/-- Claim C1: the abort-and-report machinery the claim describes (step 7,
lines 1048-1078) is unreachable.  At a validated move whose topology checks
pass, the execution closure's outcome is never consulted: whether it would
raise a hardware exception or return `False`, `_validate_and_execute_move`
raises `AttributeError` at the machine-state step (the `validate_machine_position`
slip of claim C2) before the execute phase, so the failure is never reported
through `MoveValidationResult`; the context is nevertheless left unchanged
by the raise. -/
theorem C1_executor_failure_path_unreachable :
    validate_and_execute_move .faithful demoRegistry originPos []
        (some (.error (.hardware "Serial connection lost"))) "scale_ready"
        demoIdle =
      .err (.attributeError (q "PositionRegistry" ++
        " object has no attribute " ++ q "validate_machine_position"))
        demoIdle ∧
    validate_and_execute_move .faithful demoRegistry originPos []
        (some (.ok (.bool false))) "scale_ready" demoIdle =
      .err (.attributeError (q "PositionRegistry" ++
        " object has no attribute " ++ q "validate_machine_position"))
        demoIdle := by
  decide

/-- Claim C2: a validated move whose topology checks pass raises
`AttributeError` out of the public entry point instead of returning a
`MoveValidationResult`, because `validate_machine_state` calls
`self._registry.validate_machine_position`, a method `PositionRegistry` never
defines (its coordinate validator is named `validateN_position`). -/
theorem C2_machine_state_check_raises_attribute_error :
    validate_and_execute .faithful demoRegistry allHomed originPos
      (some "scale_ready") Option.none [] (some (.ok (.bool true))) demoIdle =
    .err (.attributeError (q "PositionRegistry" ++
      " object has no attribute " ++ q "validate_machine_position")) demoIdle := by
  decide

/-- Claim C3: `complete_move(tool_still_engaged=True)` records the engaged
ready-position and advances `position_id`, then raises `AttributeError`
because the class declares no `complete_motion_with_tool` transition — the
machine never reaches `tool_engaged` and the pending move is never
cleared. -/
theorem C3_complete_move_with_tool_raises :
    complete_move demoRegistry true demoMoving =
      .err (.attributeError (q "MotionPlatformStateMachine" ++
        " object has no attribute " ++ q "complete_motion_with_tool"))
        { state := .moving
          context := { position_id := "scale_ready"
                       pending_move := some ⟨"scale_ready", Option.none⟩
                       engaged_ready_position_id := some "scale_ready" } } := by
  decide

/-- Claim C4: a move validated by `_validate_and_execute_move` (the shared
protocol of the public validated moves) or by `validate_move` outside the
tool-engaged state succeeds only if the target is among the current
position's allowed destinations and the current position is among the
target's allowed origins; violating the destination direction alone, or the
origin direction alone, fails with the respective allowed set listed in the
reason string (via `destinationsReason` / `originsReason`, which render it
with `_format_options`). -/
theorem C4_topology_both_directions (mc : MCheck) (reg : PositionRegistry)
    (pos : AxisPos) (additional : List (String × ReqVal))
    (execFn : Option (Except PyErr PyVal)) (target : String) (s : SM)
    (targetD currentD : PositionDescriptor)
    (hT : reg.get? target = some targetD)
    (hC : reg.get? s.context.position_id = some currentD) :
    (∀ r s', validate_and_execute_move mc reg pos additional execFn target s = .ok r s' →
      r.valid = true →
      currentD.allowed_destinations.contains target = true ∧
      targetD.allowed_origins.contains s.context.position_id = true) ∧
    (currentD.allowed_destinations.contains target = false →
      validate_and_execute_move mc reg pos additional execFn target s =
        .ok ⟨false, some (destinationsReason s.context.position_id target
          currentD.allowed_destinations)⟩ s) ∧
    (currentD.allowed_destinations.contains target = true →
      targetD.allowed_origins.contains s.context.position_id = false →
      validate_and_execute_move mc reg pos additional execFn target s =
        .ok ⟨false, some (originsReason target s.context.position_id
          targetD.allowed_origins)⟩ s) ∧
    ((validate_move reg s ⟨target, Option.none⟩).valid = true → s.state ≠ .tool_engaged →
      currentD.allowed_destinations.contains target = true ∧
      targetD.allowed_origins.contains s.context.position_id = true) ∧
    (s.state ≠ .tool_engaged → currentD.allowed_destinations.contains target = false →
      validate_move reg s ⟨target, Option.none⟩ =
        ⟨false, some (destinationsReason s.context.position_id target
          currentD.allowed_destinations)⟩) ∧
    (s.state ≠ .tool_engaged → currentD.allowed_destinations.contains target = true →
      targetD.allowed_origins.contains s.context.position_id = false →
      validate_move reg s ⟨target, Option.none⟩ =
        ⟨false, some (originsReason target s.context.position_id
          targetD.allowed_origins)⟩) := by
  refine ⟨?_, ?_, ?_, ?_, ?_, ?_⟩
  · intro r s' hrun hval
    by_cases hd : currentD.allowed_destinations.contains target = true
    · by_cases ho : targetD.allowed_origins.contains s.context.position_id = true
      · exact ⟨hd, ho⟩
      · rw [Bool.not_eq_true] at ho
        simp only [validate_and_execute_move, hT, hC] at hrun
        rw [if_neg (by rw [hd]; decide), if_pos (by rw [ho]; decide)] at hrun
        cases hrun
        simp at hval
    · rw [Bool.not_eq_true] at hd
      simp only [validate_and_execute_move, hT, hC] at hrun
      rw [if_pos (by rw [hd]; decide)] at hrun
      cases hrun
      simp at hval
  · intro hd
    simp only [validate_and_execute_move, hT, hC]
    rw [if_pos (by rw [hd]; decide)]
  · intro hd ho
    simp only [validate_and_execute_move, hT, hC]
    rw [if_neg (by rw [hd]; decide), if_pos (by rw [ho]; decide)]
  · intro hval hstate
    by_cases hd : currentD.allowed_destinations.contains target = true
    · by_cases ho : targetD.allowed_origins.contains s.context.position_id = true
      · exact ⟨hd, ho⟩
      · rw [Bool.not_eq_true] at ho
        simp only [validate_move, hT, hC] at hval
        rw [if_neg hstate, if_neg (by rw [hd]; decide),
          if_pos (by rw [ho]; decide)] at hval
        simp at hval
    · rw [Bool.not_eq_true] at hd
      simp only [validate_move, hT, hC] at hval
      rw [if_neg hstate, if_pos (by rw [hd]; decide)] at hval
      simp at hval
  · intro hstate hd
    simp only [validate_move, hT, hC]
    rw [if_neg hstate, if_pos (by rw [hd]; decide)]
  · intro hstate hd ho
    simp only [validate_move, hT, hC]
    rw [if_neg hstate, if_neg (by rw [hd]; decide), if_pos (by rw [ho]; decide)]

/-- Claim C4 witness: moving from `global_ready` to the unconnected
`mold_ready_A1` fails with the allowed destinations listed in the reason. -/
theorem C4_topology_both_directions_witness :
    validate_and_execute_move .intended demoRegistry originPos [] Option.none
      "mold_ready_A1" demoIdle =
    .ok ⟨false, some (destinationsReason "global_ready" "mold_ready_A1"
      gReady.allowed_destinations)⟩ demoIdle :=
  (C4_topology_both_directions .intended demoRegistry originPos [] Option.none
    "mold_ready_A1" demoIdle mReadyIsolated gReady (by decide) (by decide)).2.1
    (by decide)

/-- Claim C5 (amended): while the tool is engaged, a `request_move` whose
target differs from the current position is rejected via `validate_move`'s
ready-point guard, with the state unchanged; and through the generic
`_validate_and_execute_move` path (which has no engaged-state guard of its
own) the request still never succeeds and the platform never travels — the
execution closure is never consulted and the state is returned unchanged —
though when the topology checks pass the outcome is claim C2's
`AttributeError` escaping the entry point rather than a rejection result. -/
theorem C5_tool_engaged_move_requests_never_travel (reg : PositionRegistry)
    (s : SM) (h : s.state = .tool_engaged) :
    (∀ req : MoveRequest, req.action = Option.none →
      req.target_position_id ≠ s.context.position_id →
      ∃ r, request_move reg req s = .ok r s ∧ r.valid = false) ∧
    (∀ (pos : AxisPos) (additional : List (String × ReqVal))
        (f : Except PyErr PyVal) (target : String),
      (∀ g, validate_and_execute_move .faithful reg pos additional (some g)
          target s =
        validate_and_execute_move .faithful reg pos additional (some f)
          target s) ∧
      ((∃ r, validate_and_execute_move .faithful reg pos additional (some f)
          target s = .ok r s ∧ r.valid = false) ∨
       (∃ e, validate_and_execute_move .faithful reg pos additional (some f)
          target s = .err e s))) := by
  constructor
  · intro req hact hneq
    have hv := validate_move_engaged_invalid reg s req h hneq
    refine ⟨validate_move reg s req, ?_, hv⟩
    simp only [request_move, hact]
    rw [if_neg (by rw [h]; decide), if_neg (by rw [hv]; decide)]
  · intro pos additional f target
    exact validate_and_execute_move_faithful_stops reg pos additional f
      target s

/-- Claim C5 counterexample: with the tool engaged at `global_ready` and the
topology-legal target `scale_ready` (different from the current position),
the generic validated-move path does not reject the request with a
`MoveValidationResult`: the machine-state step raises `AttributeError` out
of the entry point (this path has no engaged-state guard, so nothing rejects
the request first). -/
theorem C5_generic_path_raises_instead_of_rejecting :
    demoEngagedAtGlobal.state = .tool_engaged ∧
    "scale_ready" ≠ demoEngagedAtGlobal.context.position_id ∧
    validate_and_execute_move .faithful demoRegistry originPos []
        (some (.ok (.bool true))) "scale_ready" demoEngagedAtGlobal =
      .err (.attributeError (q "PositionRegistry" ++
        " object has no attribute " ++ q "validate_machine_position"))
        demoEngagedAtGlobal := by
  decide

/-- Claim C5 witness: with the tool engaged at `scale_ready`, a move request
back to `global_ready` is rejected with the state unchanged. -/
theorem C5_tool_engaged_move_requests_never_travel_witness :
    ∃ r, request_move demoRegistry ⟨"global_ready", Option.none⟩
        demoEngagedNoMold = .ok r demoEngagedNoMold ∧ r.valid = false :=
  (C5_tool_engaged_move_requests_never_travel demoRegistry demoEngagedNoMold
    rfl).1 ⟨"global_ready", Option.none⟩ rfl (by decide)

/-- Claim C6 (amended): every request routed through the generic
`_validate_and_execute` protocol, and every pure move through `request_move`,
is rejected while the machine is `moving`, with the "already executing"
reason; the entry points that bypass the generic protocol (such as
`validated_dispense_powder`) perform no such check — see the
counterexample. -/
theorem C6_generic_protocol_rejects_while_moving (mc : MCheck)
    (reg : PositionRegistry) (axes : List Bool) (pos : AxisPos)
    (target? action? : Option String) (additional : List (String × ReqVal))
    (execFn : Option (Except PyErr PyVal)) (s : SM) (hmov : s.state = .moving)
    (hargs : target?.isNone ≠ action?.isNone) :
    validate_and_execute mc reg axes pos target? action? additional execFn s =
      .ok ⟨false, some "Already executing a move. Wait for current move to complete."⟩ s ∧
    (∀ req : MoveRequest, req.action = Option.none →
      request_move reg req s = .ok ⟨false, some "Already executing a move."⟩ s) := by
  constructor
  · simp only [validate_and_execute]
    rw [if_neg hargs, if_pos hmov]
  · intro req hact
    simp only [request_move, hact]
    rw [if_pos hmov]

/-- Claim C6 counterexample: with the machine in the `moving` state at the
dispensing position, `validated_dispense_powder` is not rejected — it
executes and returns a valid result, because it never consults the FSM
state. -/
theorem C6_dispense_bypasses_moving_gate :
    demoMovingAtScale.state = .moving ∧
    validated_dispense_powder 10 5 [10, 10, 10] demoMovingAtScale =
      .ok ⟨true, Option.none⟩ demoMovingAtScale := by
  constructor
  · rfl
  · norm_num [validated_dispense_powder, execute_dispense_powder, dispenseLoop,
      demoMovingAtScale]

/-- Claim C6 witness: `C6_generic_protocol_rejects_while_moving` applied at a
concrete mid-move state. -/
theorem C6_generic_protocol_rejects_while_moving_witness :
    validate_and_execute .intended demoRegistry allHomed originPos
      (some "scale_ready") Option.none [] (some (.ok (.bool true))) demoMoving =
    .ok ⟨false, some "Already executing a move. Wait for current move to complete."⟩
      demoMoving :=
  (C6_generic_protocol_rejects_while_moving .intended demoRegistry allHomed
    originPos (some "scale_ready") Option.none [] (some (.ok (.bool true)))
    demoMoving rfl (by decide)).1

/-- Claim C7 (amended): inside the generic `_validate_and_execute` protocol
the four homing actions are exempt from the homed gate (the result does not
depend on the homed flags), and every move and every non-exempt action fails
when some axis reports unhomed, with the unhomed axes named in the reason;
`validated_home_tamper` bypasses the generic gate entirely — see the
counterexample. -/
theorem C7_homed_gate_exemptions (mc : MCheck) (reg : PositionRegistry)
    (pos : AxisPos) (additional : List (String × ReqVal))
    (execFn : Option (Except PyErr PyVal)) (s : SM) :
    (∀ a, a ∈ homingActions → ∀ axes axes' : List Bool,
      validate_and_execute mc reg axes pos Option.none (some a) additional execFn s =
        validate_and_execute mc reg axes' pos Option.none (some a) additional execFn s) ∧
    (∀ axes : List Bool, notHomedNames axes ≠ [] → s.state ≠ .moving →
      (∀ t, validate_and_execute mc reg axes pos (some t) Option.none additional execFn s =
        .ok ⟨false, some (unhomedReason axes)⟩ s) ∧
      (∀ a, a ∉ homingActions →
        validate_and_execute mc reg axes pos Option.none (some a) additional execFn s =
          .ok ⟨false, some (unhomedReason axes)⟩ s)) := by
  constructor
  · intro a ha axes axes'
    simp [validate_and_execute, ha]
  · intro axes hnh hs
    constructor
    · intro t
      simp [validate_and_execute, hs, hnh]
    · intro a hna
      simp [validate_and_execute, hs, hnh, hna]

/-- Claim C7 counterexample: `home_tamper` is not on the exemption list, yet
`validated_home_tamper` succeeds with the V axis reporting unhomed — it never
passes through the generic homed gate (its executor only demands X, Y, Z, U
homed). -/
theorem C7_home_tamper_bypasses_homed_gate :
    homingActions.contains "home_tamper" = false ∧
    notHomedNames vUnhomed = ["V"] ∧
    validated_home_tamper vUnhomed "V" demoIdle = .ok ⟨true, Option.none⟩ demoIdle := by
  decide

/-- Claim C7 witness: with every axis unhomed, a validated move through the
generic protocol fails naming all the unhomed axes. -/
theorem C7_homed_gate_exemptions_witness :
    validate_and_execute .intended demoRegistry
      [false, false, false, false, false] originPos (some "scale_ready")
      Option.none [] Option.none demoIdle =
    .ok ⟨false, some (unhomedReason [false, false, false, false, false])⟩ demoIdle :=
  ((C7_homed_gate_exemptions .intended demoRegistry originPos [] Option.none
    demoIdle).2 [false, false, false, false, false] (by decide) (by decide)).1
    "scale_ready"

/-- Claim C8 (amended): `request_tool_disengagement` re-validates the engaged
position's engagement requirements before leaving `tool_engaged`, but a
failed re-validation is returned as a recoverable invalid
`MoveValidationResult`; the fatal raised `RuntimeError` for engagement-exit
re-validation lives in `_assert_engagement_exit_ready`, which runs on the
`complete_move(tool_still_engaged=False)` path. -/
theorem C8_disengagement_revalidation_paths (reg : PositionRegistry) (s : SM)
    (pid : String) (d : PositionDescriptor) (issue : String)
    (hstate : s.state = .tool_engaged)
    (hpid : s.context.engaged_ready_position_id = some pid)
    (hd : reg.get? pid = some d)
    (hreq : validateRequirements s.context (effectiveEngagementReqs d) = some issue) :
    request_tool_disengagement reg s = .ok ⟨false, some issue⟩ s ∧
    assert_engagement_exit_ready reg s =
      .err (.runtimeError ("Cannot exit tool-engaged state: " ++ issue)) s := by
  constructor
  · simp [request_tool_disengagement, hstate, hpid, hd, hreq]
  · simp [assert_engagement_exit_ready, hpid, hd, hreq]

/-- Claim C8 counterexample: with the engagement requirement
(`mold_on_scale`) silently false, `request_tool_disengagement` returns an
ordinary invalid `MoveValidationResult` — a recoverable outcome, not a
raised fatal error as the claim states. -/
theorem C8_disengagement_failure_is_recoverable_result :
    request_tool_disengagement demoRegistry demoEngagedNoMold =
      .ok ⟨false, some ("Requirement " ++ q "mold_on_scale=True" ++
        " not satisfied (current: False).")⟩ demoEngagedNoMold := by
  decide

/-- Claim C8 witness: `C8_disengagement_revalidation_paths` applied at the
concrete engaged-without-mold state. -/
theorem C8_disengagement_revalidation_paths_witness :
    request_tool_disengagement demoRegistry demoEngagedNoMold =
      .ok ⟨false, some ("Requirement " ++ q "mold_on_scale=True" ++
        " not satisfied (current: False).")⟩ demoEngagedNoMold ∧
    assert_engagement_exit_ready demoRegistry demoEngagedNoMold =
      .err (.runtimeError ("Cannot exit tool-engaged state: " ++
        ("Requirement " ++ q "mold_on_scale=True" ++
          " not satisfied (current: False).")))  demoEngagedNoMold :=
  C8_disengagement_revalidation_paths demoRegistry demoEngagedNoMold
    "scale_ready" sReady
    ("Requirement " ++ q "mold_on_scale=True" ++ " not satisfied (current: False).")
    rfl rfl (by decide) (by decide)

/-- Claim C9: the dispense-to-target-weight loop terminates with success only
after a final stable confirmation reading of at least 99% of the target
weight (the returned value is that reading); and when an unstable reading
reaches 99% but the subsequent stable confirmation is still below 99%, the
loop resumes trickling on the remaining readings instead of accepting. -/
theorem C9_dispense_requires_stable_confirmation (target : ℚ) :
    (∀ (fuel : Nat) (readings : List ℚ) (w : ℚ),
        dispenseLoop target fuel readings = some w → 99/100 * target ≤ w) ∧
    (∀ (fuel : Nat) (u u2 st : ℚ) (rest : List ℚ),
        9/10 * target ≤ u → 99/100 * target ≤ u2 → st < 99/100 * target →
        dispenseLoop target (fuel + 1) (u :: u2 :: st :: rest) =
          dispenseLoop target fuel rest) := by
  constructor
  · intro fuel
    induction fuel with
    | zero => intro readings w h; simp [dispenseLoop] at h
    | succ n ih =>
      intro readings w h
      cases readings with
      | nil => simp [dispenseLoop] at h
      | cons current rest =>
        simp only [dispenseLoop] at h
        split at h
        · split at h
          · exact absurd h (by simp)
          · split at h
            · split at h
              · exact absurd h (by simp)
              · split at h
                next hfin =>
                  cases h
                  exact hfin
                next hfin => exact ih _ _ h
            · exact ih _ _ h
        · split at h
          · exact absurd h (by simp)
          · exact ih _ _ h
  · intro fuel u u2 st rest h1 h2 h3
    conv_lhs => rw [dispenseLoop]
    rw [if_pos h1]
    show (if u2 ≥ 99/100 * target then
        (if st ≥ 99/100 * target then some st else dispenseLoop target fuel rest)
      else dispenseLoop target fuel (st :: rest)) = dispenseLoop target fuel rest
    rw [if_pos h2, if_neg (not_le.mpr h3)]

/-- Claim C9 witness: for a 10-unit target, a successful run's confirmation
reading 9.95 is at least 99% of target, and a run whose stable confirmation
reads 9.8 after an unstable 9.95 resumes the loop. -/
theorem C9_dispense_requires_stable_confirmation_witness :
    (99/100 : ℚ) * 10 ≤ 199/20 ∧
    dispenseLoop 10 2 [19/2, 199/20, 49/5] = dispenseLoop 10 1 [] :=
  ⟨(C9_dispense_requires_stable_confirmation 10).1 2 [19/2, 199/20, 199/20]
      (199/20) (by norm_num [dispenseLoop]),
   (C9_dispense_requires_stable_confirmation 10).2 1 (19/2) (199/20) (49/5) []
      (by norm_num) (by norm_num) (by norm_num)⟩

/-- Claim C10: `validated_pick_mold_from_well` returns an invalid result on
every input — the executor's undefined `z_ready` (or an earlier hardware
error) always raises — and `validated_place_mold_in_well` likewise always
returns an invalid result, because its executor call passes keyword
arguments the executor does not accept; the pick/place round trip therefore
can never complete, and the state is left unchanged. -/
theorem C10_pick_and_place_always_fail
    (lookup : Option (String → Option WeightWell)) (well_id : String)
    (machineCall : Nat → Option PyErr) (s s' : SM) (deckConfigured : Bool) :
    (∃ r, validated_pick_mold_from_well lookup well_id machineCall s = .ok r s ∧
      r.valid = false) ∧
    (∃ r, validated_place_mold_in_well deckConfigured s' = .ok r s' ∧
      r.valid = false) := by
  constructor
  · simp only [validated_pick_mold_from_well]
    split
    · exact ⟨_, rfl, rfl⟩
    · split
      · exact ⟨_, rfl, rfl⟩
      · split
        · exact ⟨_, rfl, rfl⟩
        · split
          · exact ⟨_, rfl, rfl⟩
          · split
            · exact ⟨_, rfl, rfl⟩
            · obtain ⟨e, he⟩ := execute_pick_mold_from_well_error machineCall
              simp only [he]
              exact ⟨_, rfl, rfl⟩
  · simp only [validated_place_mold_in_well, call_execute_place_mold_in_well]
    split
    · exact ⟨_, rfl, rfl⟩
    · split
      · exact ⟨_, rfl, rfl⟩
      · exact ⟨_, rfl, rfl⟩

/-- Claim C10 witness: picking a valid, piston-free well A1 with a flawless
hardware oracle still fails. -/
theorem C10_pick_and_place_always_fail_witness :
    ∃ r, validated_pick_mold_from_well
        (some fun _ => some { name := "A1" }) "A1" (fun _ => Option.none)
        demoIdle = .ok r demoIdle ∧ r.valid = false :=
  (C10_pick_and_place_always_fail (some fun _ => some { name := "A1" }) "A1"
    (fun _ => Option.none) demoIdle demoIdle true).1

end Jubilee
